import Mathlib

/-!
Verification of the day-finalization and streak-state machine of the
AI-Tracker habit dashboard.

The repository implements the core logic twice:
* `src/script.js` — the live dashboard path (`calculateDayState`,
  `isHabitValidated`, `previewFinalState`, `validateAndUpdateAllStreaks`,
  `applyMissedDayPenalty`, `saveNow`, `createTodayLog`, `wasWakeupOnTime`);
* `src/habitSystem.js` — the "authority" module (`DayStateMachine`,
  `HabitRegistry`, `HabitStreakAuthority`).

Both are embedded below.  Times of day are modelled as minutes since
midnight (`Nat`); `new Date('2000-01-01T' + t)` arithmetic on "HH:MM"
strings is exactly minute arithmetic.  JS numbers that hold hour counts
are modelled as `ℚ`.  A JS value that can be `null`/`undefined`/empty is
an `Option`; the JS `x || d` default (which treats `0` and `''` as
falsy) is embedded by the `jsOr*` helpers.
-/

/-- Day states (`DAY_STATES` in script.js, `DayState` in habitSystem.js). -/
inductive DayState where
  | NOT_COUNTED
  | COMPLETED
  | MISSED
  | NOT_STARTED
  | IN_PROGRESS
deriving DecidableEq, Repr

/-- A daily log record (`createTodayLog` shape in script.js).
`wakeUp` is a time of day in minutes since midnight; `none` models an
empty/missing wake-up string (JS falsy). -/
structure DayLog where
  date : String
  wakeUp : Option Nat
  learned : String
  learningDone : Bool
  learningHours : ℚ
  workout : Bool
  workoutType : Option String
  screenTime : ℚ
  mits : List String
  mitsDone : List Bool
  archived : Bool
  finalized : Bool
  finalizedAt : Option String
  finalState : Option DayState
  lastInteraction : Option String
deriving DecidableEq, Repr

/-- JS `x || d` on an optional number: `undefined`, `null` and `0` all
fall back to the default. -/
def jsOrQ (o : Option ℚ) (d : ℚ) : ℚ :=
  match o with
  | none => d
  | some x => if x = 0 then d else x

/-- JS `x || d` on an optional integer (tolerances). -/
def jsOrI (o : Option Int) (d : Int) : Int :=
  match o with
  | none => d
  | some x => if x = 0 then d else x

/-- JS `x || d` on an optional string: `undefined`, `null` and `''` fall
back to the default. -/
def jsOrS (o : Option String) (d : String) : String :=
  match o with
  | none => d
  | some x => if x = "" then d else x

/-!  ## script.js model

Settings as seen by script.js: the four `nonNegotiables.<id>.enabled`
flags read through `settingsAuthority.get` (absent = `none`, which the
`!== false` checks treat as enabled), `dashboardData.settings`
(`wakeupTarget`, `screenTimeGoal`) and `streaks.sensitivity`.
`learningMinHours` models `nonNegotiables.learning.minHoursDaily`, which
the settings authority stores (default 2) but which `isHabitValidated`
never reads. -/
structure Settings where
  learningEnabled : Option Bool
  gymEnabled : Option Bool
  sleepEnabled : Option Bool
  screenTimeEnabled : Option Bool
  wakeupTarget : Nat
  screenTimeGoal : Option ℚ
  sensitivity : Option String
  learningMinHours : ℚ

/-- `wasWakeupOnTime` (script.js 3338–3343): false when the wake-up
field is falsy, otherwise the wake-up minus the configured target must
be at most 30 minutes. -/
def wasWakeupOnTime (log : Option DayLog) (s : Settings) : Bool :=
  match log with
  | none => false
  | some l =>
    match l.wakeUp with
    | none => false
    | some w => decide ((w : Int) - (s.wakeupTarget : Int) ≤ 30)

/-- `isHabitValidated` (script.js 1990–2014).  Note the learning case
requires `learningHours > 0` and ignores the configured minimum, and the
default case returns `true` (fail-open). -/
def isHabitValidated (habitId : String) (log : Option DayLog) (s : Settings) : Bool :=
  match log with
  | none => false
  | some l =>
    if habitId = "learning" then
      l.learningDone && decide (0 < l.learningHours)
    else if habitId = "gym" then
      l.workout
    else if habitId = "sleep" then
      wasWakeupOnTime (some l) s
    else if habitId = "screenTime" then
      decide (l.screenTime ≤ jsOrQ s.screenTimeGoal 3)
    else
      true

/-- `getEnabledRequiredHabits` (script.js 1968–1985): the ids whose
`nonNegotiables.<id>.enabled` setting is not explicitly `false`, in the
order learning, gym, sleep, screenTime. -/
def getEnabledRequiredHabits (s : Settings) : List String :=
  (if s.learningEnabled ≠ some false then ["learning"] else []) ++
  (if s.gymEnabled ≠ some false then ["gym"] else []) ++
  (if s.sleepEnabled ≠ some false then ["sleep"] else []) ++
  (if s.screenTimeEnabled ≠ some false then ["screenTime"] else [])

/-- `getHabitDisplayName` (script.js 1955–1963). -/
def getHabitDisplayName (habitId : String) : String :=
  if habitId = "learning" then "Learning"
  else if habitId = "gym" then "Workout"
  else if habitId = "sleep" then "Wake-up"
  else if habitId = "screenTime" then "Screen Time"
  else habitId

/-- `calculateDayState` (script.js 1858–1885).  The JS `for` loop with
`break` computes "all enabled habits validated". -/
def calculateDayState (log : Option DayLog) (s : Settings) : DayState :=
  match log with
  | none => DayState.NOT_COUNTED
  | some l =>
    if !l.finalized then DayState.NOT_COUNTED
    else
      let enabledHabits := getEnabledRequiredHabits s
      if enabledHabits.length = 0 then DayState.COMPLETED
      else if enabledHabits.all (fun h => isHabitValidated h (some l) s) then
        DayState.COMPLETED
      else DayState.MISSED

/-- Result record of `previewFinalState`. -/
structure PreviewResult where
  state : DayState
  missingHabits : List String
  mitsCompleted : Nat
deriving DecidableEq, Repr

/-- `previewFinalState` (script.js 1921–1950): same enabled list and same
per-habit predicate as `calculateDayState`, collecting failing habits'
display names; MITs counted but not affecting the state. -/
def previewFinalState (log : Option DayLog) (s : Settings) : PreviewResult :=
  match log with
  | none => { state := DayState.NOT_COUNTED, missingHabits := [], mitsCompleted := 0 }
  | some l =>
    let enabledHabits := getEnabledRequiredHabits s
    let missingHabits :=
      (enabledHabits.filter (fun h => !isHabitValidated h (some l) s)).map getHabitDisplayName
    let allMet := enabledHabits.all (fun h => isHabitValidated h (some l) s)
    let mitsCompleted := (l.mitsDone.filter id).length
    let state :=
      if enabledHabits.length = 0 then DayState.COMPLETED
      else if allMet then DayState.COMPLETED else DayState.MISSED
    { state := state, missingHabits := missingHabits, mitsCompleted := mitsCompleted }

/-- `createTodayLog` (script.js 2439–2476): the fresh record for today;
`wakeUp` is pre-filled with `dashboardData.settings.wakeupTarget`. -/
def createTodayLog (todayStr : String) (s : Settings) : DayLog :=
  { date := todayStr
    wakeUp := some s.wakeupTarget
    learned := ""
    learningDone := false
    learningHours := 0
    workout := false
    workoutType := some "gym"
    screenTime := 0
    mits := ["", "", ""]
    mitsDone := [false, false, false]
    archived := false
    finalized := false
    finalizedAt := none
    finalState := none
    lastInteraction := none }

/-- Per-habit streak storage in script.js: `dashboardData.streaks[id]`
(the `streak` field) together with `dashboardData.streakHistory[id]`
(`best`, `recoveryDays`, `lastBroken`, `lastUpdated`; the last two are
date strings). -/
structure StreakSlot where
  streak : Nat
  best : Nat
  recoveryDays : Nat
  lastBroken : Option String
  lastUpdated : Option String
deriving DecidableEq, Repr

/-- The `enabledKey` lookup used by `validateAndUpdateAllStreaks` and
`applyMissedDayPenalty`: gym and sleep map to their own flags, anything
else to the learning flag. -/
def streakEnabledKey (s : Settings) (habitId : String) : Option Bool :=
  if habitId = "gym" then s.gymEnabled
  else if habitId = "sleep" then s.sleepEnabled
  else s.learningEnabled

/-- `checkHabitCompletion` (script.js 1486–1488): delegates to
`isHabitValidated`. -/
def checkHabitCompletion (habitId : String) (log : DayLog) (s : Settings) : Bool :=
  isHabitValidated habitId (some log) s

/-- The body of the per-habit closure in `validateAndUpdateAllStreaks`
(script.js 1429–1481): skip disabled habits; skip if already updated
today; otherwise consume a recovery day or increment the streak, and
stamp `lastUpdated := today`. -/
def validateStreakForHabit (habitId : String) (log : DayLog) (today : String)
    (s : Settings) (slot : StreakSlot) : StreakSlot :=
  if streakEnabledKey s habitId = some false then slot
  else if slot.lastUpdated = some today then slot
  else
    let isComplete := checkHabitCompletion habitId log s
    if slot.recoveryDays > 0 then
      if isComplete then
        let newRecovery := slot.recoveryDays - 1
        { slot with recoveryDays := newRecovery
                    streak := if newRecovery = 0 then 1 else slot.streak
                    lastUpdated := some today }
      else { slot with lastUpdated := some today }
    else
      if isComplete then
        let newStreak := slot.streak + 1
        { slot with streak := newStreak
                    best := max slot.best newStreak
                    lastUpdated := some today }
      else { slot with lastUpdated := some today }

/-- The three streak-eligible habits' slots (`learning`, `gym`, `sleep`). -/
structure Streaks3 where
  learning : StreakSlot
  gym : StreakSlot
  sleep : StreakSlot
deriving DecidableEq, Repr

/-- `validateAndUpdateAllStreaks` (script.js 1429–1481): apply the
per-habit update to each of learning, gym, sleep. -/
def validateAndUpdateAllStreaks (log : DayLog) (today : String) (s : Settings)
    (st : Streaks3) : Streaks3 :=
  { learning := validateStreakForHabit "learning" log today s st.learning
    gym := validateStreakForHabit "gym" log today s st.gym
    sleep := validateStreakForHabit "sleep" log today s st.sleep }

/-- The body of the per-habit closure in `applyMissedDayPenalty`
(script.js 1340–1382): skip disabled habits and validated habits; skip if
already processed today; otherwise apply the sensitivity-mode penalty —
`strict` resets the streak to 0 with a flat 5-day recovery (even when the
current streak is already 0), `moderate` halves the streak, the default
(`normal`/`lenient`) applies no penalty — and stamp `lastUpdated`. -/
def applyMissedPenaltyForHabit (habitId : String) (log : DayLog) (today : String)
    (s : Settings) (slot : StreakSlot) : StreakSlot :=
  if streakEnabledKey s habitId = some false then slot
  else if isHabitValidated habitId (some log) s then slot
  else if slot.lastUpdated = some today then slot
  else
    let sensitivity := jsOrS s.sensitivity "normal"
    if sensitivity = "strict" then
      { slot with best := if slot.streak > 0 then max slot.best slot.streak else slot.best
                  streak := 0
                  lastBroken := some today
                  recoveryDays := 5
                  lastUpdated := some today }
    else if sensitivity = "moderate" then
      { slot with streak := slot.streak / 2
                  lastUpdated := some today }
    else
      { slot with lastUpdated := some today }

/-- `applyMissedDayPenalty` (script.js 1340–1382): the per-habit penalty
applied to each of learning, gym, sleep. -/
def applyMissedDayPenalty (log : DayLog) (today : String) (s : Settings)
    (st : Streaks3) : Streaks3 :=
  { learning := applyMissedPenaltyForHabit "learning" log today s st.learning
    gym := applyMissedPenaltyForHabit "gym" log today s st.gym
    sleep := applyMissedPenaltyForHabit "sleep" log today s st.sleep }

/-- The snapshot written to localStorage by `saveNow` before the backend
call. -/
structure StoredSnapshot where
  todayLog : DayLog
  streaks : Streaks3
deriving DecidableEq, Repr

/-- The mutable state `saveNow` touches: today's record, the streak
slots, `dashboardData.lastActiveDate`, and the localStorage snapshot. -/
structure AppState where
  todayLog : DayLog
  streaks : Streaks3
  lastActiveDate : Option String
  storage : Option StoredSnapshot
deriving DecidableEq, Repr

/-- `saveNow` (script.js 1204–1307) as a state transformer.
`persistOk = false` models `saveToBackendSync` throwing (with
`useBackend` on).  The code path: guard on already-finalized; set
`finalized := true` and `finalizedAt`; compute and store the final day
state; update or penalize streaks according to that state; stamp
`lastActiveDate`; write localStorage; then persist to the backend.  The
`catch` block only reverts `todayLog.finalized` — every earlier mutation
survives a persistence failure. -/
def saveNow (st : AppState) (s : Settings) (today : String) (now : String)
    (useBackend : Bool) (persistOk : Bool) : AppState :=
  if st.todayLog.finalized then st
  else
    let log1 := { st.todayLog with finalized := true
                                   finalizedAt := some now
                                   lastInteraction := some now }
    let dayState := calculateDayState (some log1) s
    let log2 := { log1 with finalState := some dayState }
    let streaks2 :=
      if dayState = DayState.COMPLETED then
        validateAndUpdateAllStreaks log2 today s st.streaks
      else if dayState = DayState.MISSED then
        applyMissedDayPenalty log2 today s st.streaks
      else st.streaks
    let stored := some { todayLog := log2, streaks := streaks2 : StoredSnapshot }
    if useBackend && !persistOk then
      { todayLog := { log2 with finalized := false }
        streaks := streaks2
        lastActiveDate := some today
        storage := stored }
    else
      { todayLog := log2
        streaks := streaks2
        lastActiveDate := some today
        storage := stored }

/-!  ## habitSystem.js model -/

/-- A habit entry of `HabitRegistry.habits` (only the fields the
verified logic reads). -/
structure HabitDef where
  id : String
  streakEnabled : Bool
  countsTowardCompletion : Bool
deriving DecidableEq, Repr

/-- `HabitRegistry.habits` in declaration order. -/
def registryHabits : List HabitDef :=
  [ { id := "learning", streakEnabled := true, countsTowardCompletion := true }
  , { id := "gym", streakEnabled := true, countsTowardCompletion := true }
  , { id := "sleep", streakEnabled := true, countsTowardCompletion := true }
  , { id := "screenTime", streakEnabled := false, countsTowardCompletion := true } ]

/-- `HabitRegistry.getHabit`: object lookup, `null` when absent. -/
def getHabit (habitId : String) : Option HabitDef :=
  registryHabits.find? (fun h => h.id = habitId)

/-- Per-habit settings object `settings.nonNegotiables[id]` as read by
habitSystem.js. -/
structure HSHabitSettings where
  enabled : Option Bool := none
  minHoursDaily : Option ℚ := none
  wakeupTarget : Option Nat := none
  wakeupTolerance : Option Int := none
  dailyLimit : Option ℚ := none
  countsTowardCompletion : Option Bool := none

/-- Settings as consumed by habitSystem.js: `settings?.nonNegotiables?.[id]`
is an object lookup that may miss. -/
structure HSettings where
  nonNegotiables : String → Option HSHabitSettings

/-- `HabitRegistry.getEnabledHabits`: keep habits whose
`enabled` setting is not explicitly `false`. -/
def getEnabledHabits (s : HSettings) : List HabitDef :=
  registryHabits.filter (fun h => (s.nonNegotiables h.id).bind (fun x => x.enabled) ≠ some false)

/-- `HabitRegistry.getCompletionHabits` (v11): enabled habits whose
`countsTowardCompletion` is not overridden to `false` and whose registry
flag is set. -/
def getCompletionHabits (s : HSettings) : List HabitDef :=
  (getEnabledHabits s).filter (fun h =>
    decide ((s.nonNegotiables h.id).bind (fun x => x.countsTowardCompletion) ≠ some false)
      && h.countsTowardCompletion)

/-- `DayStateMachine.isWakeupOnTime` (habitSystem.js 206–212). -/
def DSM_isWakeupOnTime (wakeupTime : Option Nat) (targetTime : Nat) (toleranceMinutes : Int) : Bool :=
  match wakeupTime with
  | none => false
  | some w => decide ((w : Int) - (targetTime : Int) ≤ toleranceMinutes)

/-- `DayStateMachine.isHabitComplete` (habitSystem.js 173–204).  Note
the learning case compares against the configured `minHoursDaily`
(default 0), and the default case returns `false`. -/
def DSM_isHabitComplete (habitId : String) (log : Option DayLog) (s : HSettings) : Bool :=
  match log with
  | none => false
  | some l =>
    let habitSettings := s.nonNegotiables habitId
    if habitId = "learning" then
      if !l.learningDone then false
      else
        let minHours := jsOrQ (habitSettings.bind (fun x => x.minHoursDaily)) 0
        decide (l.learningHours ≥ minHours)
    else if habitId = "gym" then
      l.workout
    else if habitId = "sleep" then
      match l.wakeUp with
      | none => false
      | some w =>
        let target := (habitSettings.bind (fun x => x.wakeupTarget)).getD 345
        let tolerance := jsOrI (habitSettings.bind (fun x => x.wakeupTolerance)) 30
        DSM_isWakeupOnTime (some w) target tolerance
    else if habitId = "screenTime" then
      let limit := jsOrQ (habitSettings.bind (fun x => x.dailyLimit)) 3
      decide (l.screenTime ≤ limit)
    else
      false

/-- `DayStateMachine.calculateState` (habitSystem.js 124–149). -/
def DSM_calculateState (log : Option DayLog) (s : HSettings) : DayState :=
  match log with
  | none => DayState.NOT_COUNTED
  | some l =>
    if !l.finalized then DayState.NOT_COUNTED
    else
      let enabledHabits := getCompletionHabits s
      if enabledHabits.length = 0 then DayState.COMPLETED
      else if enabledHabits.all (fun h => DSM_isHabitComplete h.id (some l) s) then
        DayState.COMPLETED
      else DayState.MISSED

/-- Streak state handled by `HabitStreakAuthority`: `current`, `best`,
`recoveryDays` (JS `x || 0` makes missing fields 0), plus the
`lastBroken`/`lastUpdated` timestamps. -/
structure StreakData where
  current : Nat
  best : Nat
  recoveryDays : Nat
  lastBroken : Option String
  lastUpdated : Option String
deriving DecidableEq, Repr

/-- `HabitStreakAuthority.breakHabitStreak` (habitSystem.js 380–391):
no-op when `current` is 0; otherwise reset `current`, fold it into
`best`, record the break, and set `recoveryDays` to
`min(ceil(current / 3), 5)`. -/
def breakHabitStreak (_habitId : String) (sd : StreakData) (now : String) : StreakData :=
  if sd.current = 0 then sd
  else
    { sd with current := 0
              best := max sd.current sd.best
              lastBroken := some now
              recoveryDays := min (Nat.ceil ((sd.current : ℚ) / 3)) 5 }

/-- `HabitStreakAuthority.updateHabitStreak` (habitSystem.js 324–374):
guards for non-streak/unknown habits, disabled habits and un-finalized
days; then recovery countdown, streak increment, or break.  There is no
`lastEvaluatedDate` guard in this function. -/
def updateHabitStreak (habitId : String) (log : DayLog) (sd : StreakData)
    (s : HSettings) (now : String) : StreakData :=
  match getHabit habitId with
  | none => sd
  | some habit =>
    if !habit.streakEnabled then sd
    else if (s.nonNegotiables habitId).bind (fun x => x.enabled) = some false then sd
    else if !log.finalized then sd
    else
      let isComplete := DSM_isHabitComplete habitId (some log) s
      if sd.recoveryDays > 0 then
        if isComplete then
          let newRecovery := sd.recoveryDays - 1
          { sd with recoveryDays := newRecovery
                    current := if newRecovery = 0 then 1 else sd.current
                    lastUpdated := some now }
        else sd
      else if isComplete then
        let newStreak := sd.current + 1
        { sd with current := newStreak
                  best := max newStreak sd.best
                  lastUpdated := some now }
      else breakHabitStreak habitId sd now

/-!  ## Helper lemmas -/

/-- `isHabitValidated` never reads the `finalized` flag. -/
lemma isHabitValidated_finalized_irrel (habitId : String) (l : DayLog) (s : Settings) (b : Bool) :
    isHabitValidated habitId (some { l with finalized := b }) s =
      isHabitValidated habitId (some l) s := rfl

/-- `calculateDayState` on a finalized record reduces to the all-habits
check (the empty-list case folds into `List.all`). -/
lemma calculateDayState_finalized (l : DayLog) (s : Settings) (hl : l.finalized = true) :
    calculateDayState (some l) s =
      if (getEnabledRequiredHabits s).all (fun h => isHabitValidated h (some l) s) then
        DayState.COMPLETED
      else DayState.MISSED := by
  simp only [calculateDayState, hl, Bool.not_true, Bool.false_eq_true, if_false]
  by_cases hlen : (getEnabledRequiredHabits s).length = 0
  · have hnil : getEnabledRequiredHabits s = [] := List.length_eq_zero.mp hlen
    simp [hlen, hnil]
  · simp [hlen]

/-- `DSM_calculateState` on a finalized record reduces to the all-habits
check. -/
lemma DSM_calculateState_finalized (l : DayLog) (s : HSettings) (hl : l.finalized = true) :
    DSM_calculateState (some l) s =
      if (getCompletionHabits s).all (fun h => DSM_isHabitComplete h.id (some l) s) then
        DayState.COMPLETED
      else DayState.MISSED := by
  simp only [DSM_calculateState, hl, Bool.not_true, Bool.false_eq_true, if_false]
  by_cases hlen : (getCompletionHabits s).length = 0
  · have hnil : getCompletionHabits s = [] := List.length_eq_zero.mp hlen
    simp [hlen, hnil]
  · simp [hlen]

/-!  ## Claims -/

/-- C1: for every day record whose finalized flag is false, both
day-state computations return `NOT_COUNTED` regardless of every other
field, and a missing (`null`) record is also `NOT_COUNTED`. -/
theorem day_state_not_finalized (l : DayLog) (s : Settings) (hs : HSettings) :
    calculateDayState (some { l with finalized := false }) s = DayState.NOT_COUNTED ∧
    calculateDayState none s = DayState.NOT_COUNTED ∧
    DSM_calculateState (some { l with finalized := false }) hs = DayState.NOT_COUNTED ∧
    DSM_calculateState none hs = DayState.NOT_COUNTED := by
  refine ⟨?_, rfl, ?_, rfl⟩ <;> simp [calculateDayState, DSM_calculateState]

/-- C2: for every finalized day record, both day-state computations
return `COMPLETED` exactly when every habit in the enabled-required list
satisfies the per-habit predicate (vacuously when the list is empty),
and the result is always one of `COMPLETED`/`MISSED`. -/
theorem day_state_finalized_characterization (l : DayLog) (s : Settings) (hs : HSettings) :
    (calculateDayState (some { l with finalized := true }) s = DayState.COMPLETED ↔
      ∀ h ∈ getEnabledRequiredHabits s,
        isHabitValidated h (some { l with finalized := true }) s = true) ∧
    (calculateDayState (some { l with finalized := true }) s = DayState.COMPLETED ∨
      calculateDayState (some { l with finalized := true }) s = DayState.MISSED) ∧
    (DSM_calculateState (some { l with finalized := true }) hs = DayState.COMPLETED ↔
      ∀ h ∈ getCompletionHabits hs,
        DSM_isHabitComplete h.id (some { l with finalized := true }) hs = true) ∧
    (DSM_calculateState (some { l with finalized := true }) hs = DayState.COMPLETED ∨
      DSM_calculateState (some { l with finalized := true }) hs = DayState.MISSED) := by
  rw [calculateDayState_finalized _ _ rfl, DSM_calculateState_finalized _ _ rfl]
  refine ⟨?_, ?_, ?_, ?_⟩
  · by_cases hall : (getEnabledRequiredHabits s).all
        (fun h => isHabitValidated h (some { l with finalized := true }) s)
    · simpa [hall] using List.all_eq_true.mp hall
    · simp only [hall, if_false]
      constructor
      · intro hcon; exact absurd hcon (by simp)
      · intro hforall; exact absurd (List.all_eq_true.mpr hforall) hall
  · by_cases hall : (getEnabledRequiredHabits s).all
        (fun h => isHabitValidated h (some { l with finalized := true }) s) <;>
      simp [hall]
  · by_cases hall : (getCompletionHabits hs).all
        (fun h => DSM_isHabitComplete h.id (some { l with finalized := true }) hs)
    · simpa [hall] using List.all_eq_true.mp hall
    · simp only [hall, if_false]
      constructor
      · intro hcon; exact absurd hcon (by simp)
      · intro hforall; exact absurd (List.all_eq_true.mpr hforall) hall
  · by_cases hall : (getCompletionHabits hs).all
        (fun h => DSM_isHabitComplete h.id (some { l with finalized := true }) hs) <;>
      simp [hall]

/-- C7: the state returned by `previewFinalState` equals the state
`calculateDayState` computes for the same record once its finalized
flag is set — preview and finalize share the enabled-habit list and the
per-habit predicate. -/
theorem previewFinalState_agrees_with_finalize (l : DayLog) (s : Settings) :
    (previewFinalState (some l) s).state =
      calculateDayState (some { l with finalized := true }) s := by
  rw [calculateDayState_finalized _ _ rfl]
  simp only [previewFinalState, isHabitValidated_finalized_irrel]
  by_cases hlen : (getEnabledRequiredHabits s).length = 0
  · have hnil : getEnabledRequiredHabits s = [] := List.length_eq_zero.mp hlen
    simp [hlen, hnil]
  · simp [hlen]

/-- C10: a freshly created day record has its wake-up time pre-filled
with the configured wake-up target, so the sleep predicate holds on the
brand-new record (also once finalized with zero user input). -/
theorem createTodayLog_sleep_satisfied (today : String) (s : Settings) :
    (createTodayLog today s).wakeUp = some s.wakeupTarget ∧
    wasWakeupOnTime (some (createTodayLog today s)) s = true ∧
    isHabitValidated "sleep" (some (createTodayLog today s)) s = true ∧
    isHabitValidated "sleep" (some { createTodayLog today s with finalized := true }) s = true := by
  refine ⟨rfl, ?_, ?_, ?_⟩ <;>
    simp [isHabitValidated, wasWakeupOnTime, createTodayLog]

/-- Every path of `validateStreakForHabit` that changes the slot stamps
`lastUpdated := today`. -/
lemma validateStreakForHabit_stamps (habitId : String) (log : DayLog) (today : String)
    (s : Settings) (slot : StreakSlot) :
    validateStreakForHabit habitId log today s slot = slot ∨
      (validateStreakForHabit habitId log today s slot).lastUpdated = some today := by
  unfold validateStreakForHabit
  split_ifs <;> simp <;> right <;> split_ifs <;> rfl

/-- A slot already stamped with today's date is returned unchanged. -/
lemma validateStreakForHabit_already_updated (habitId : String) (log : DayLog) (today : String)
    (s : Settings) (slot : StreakSlot) (h : slot.lastUpdated = some today) :
    validateStreakForHabit habitId log today s slot = slot := by
  unfold validateStreakForHabit
  split_ifs <;> simp_all

/-- The per-habit streak update of script.js is idempotent for a fixed
date. -/
lemma validateStreakForHabit_idem (habitId : String) (log : DayLog) (today : String)
    (s : Settings) (slot : StreakSlot) :
    validateStreakForHabit habitId log today s (validateStreakForHabit habitId log today s slot) =
      validateStreakForHabit habitId log today s slot := by
  rcases validateStreakForHabit_stamps habitId log today s slot with heq | hlast
  · rw [heq, heq]
  · exact validateStreakForHabit_already_updated habitId log today s _ hlast

/-- C3 (amended): `validateAndUpdateAllStreaks` is idempotent per date —
the second application finds `lastUpdated = today` on every slot it did
not skip and returns the state unchanged. -/
theorem validateAndUpdateAllStreaks_idem (log : DayLog) (today : String) (s : Settings)
    (st : Streaks3) :
    validateAndUpdateAllStreaks log today s (validateAndUpdateAllStreaks log today s st) =
      validateAndUpdateAllStreaks log today s st := by
  simp [validateAndUpdateAllStreaks, validateStreakForHabit_idem]

/-- A finalized record that satisfies the learning habit under empty
per-habit settings (`minHoursDaily` defaults to 0). -/
def exGoodLog : DayLog :=
  { date := "2026-01-01"
    wakeUp := some 345
    learned := ""
    learningDone := true
    learningHours := 1
    workout := true
    workoutType := some "gym"
    screenTime := 0
    mits := ["", "", ""]
    mitsDone := [false, false, false]
    archived := false
    finalized := true
    finalizedAt := some "2026-01-01T20:00:00"
    finalState := none
    lastInteraction := none }

/-- habitSystem settings with no per-habit overrides. -/
def exHSettings : HSettings := { nonNegotiables := fun _ => none }

/-- A zeroed streak state. -/
def exStreak0 : StreakData :=
  { current := 0, best := 0, recoveryDays := 0, lastBroken := none, lastUpdated := none }

/-- C3 counterexample: `HabitStreakAuthority.updateHabitStreak` has no
`lastEvaluatedDate` guard — applying it twice for the same finalized day
increments the learning streak to 2 instead of leaving it at 1. -/
theorem updateHabitStreak_not_idempotent :
    updateHabitStreak "learning" exGoodLog
        (updateHabitStreak "learning" exGoodLog exStreak0 exHSettings "2026-01-01")
        exHSettings "2026-01-01" ≠
      updateHabitStreak "learning" exGoodLog exStreak0 exHSettings "2026-01-01" := by
  decide

/-- C4 (amended): `HabitStreakAuthority.breakHabitStreak` is a no-op
when the current count is 0; otherwise it zeroes `current`, folds it
into `best`, records the break date, and sets the recovery period to
`min(ceil(current / 3), 5)`.  (The `strict` sensitivity path of
script.js `applyMissedDayPenalty` behaves differently — see the
counterexample.) -/
theorem breakHabitStreak_spec (habitId : String) (sd : StreakData) (now : String) :
    (sd.current = 0 → breakHabitStreak habitId sd now = sd) ∧
    (sd.current ≠ 0 →
      (breakHabitStreak habitId sd now).current = 0 ∧
      (breakHabitStreak habitId sd now).best = max sd.current sd.best ∧
      (breakHabitStreak habitId sd now).lastBroken = some now ∧
      (breakHabitStreak habitId sd now).recoveryDays =
        min (Nat.ceil ((sd.current : ℚ) / 3)) 5) := by
  unfold breakHabitStreak
  constructor
  · intro h; simp [h]
  · intro h; simp [h]

/-- A streak state with a running streak of 4. -/
def exStreak4 : StreakData :=
  { current := 4, best := 2, recoveryDays := 0, lastBroken := none, lastUpdated := none }

/-- Witness for C4's theorem at a concrete broken streak of length 4
(recovery `min(ceil(4/3), 5) = 2`). -/
theorem breakHabitStreak_spec_witness :
    exStreak4.current ≠ 0 ∧
    ((breakHabitStreak "learning" exStreak4 "2026-01-02").current = 0 ∧
      (breakHabitStreak "learning" exStreak4 "2026-01-02").best = max exStreak4.current exStreak4.best ∧
      (breakHabitStreak "learning" exStreak4 "2026-01-02").lastBroken = some "2026-01-02" ∧
      (breakHabitStreak "learning" exStreak4 "2026-01-02").recoveryDays =
        min (Nat.ceil ((exStreak4.current : ℚ) / 3)) 5) :=
  ⟨by decide, (breakHabitStreak_spec "learning" exStreak4 "2026-01-02").2 (by decide)⟩

/-- Script-path settings with everything enabled, the default wake-up
target, and the `strict` streak sensitivity selected. -/
def exStrictS : Settings :=
  { learningEnabled := none, gymEnabled := none, sleepEnabled := none
    screenTimeEnabled := none, wakeupTarget := 345, screenTimeGoal := none
    sensitivity := some "strict", learningMinHours := 2 }

/-- A finalized record on which the learning habit fails. -/
def exMissLog : DayLog :=
  { exGoodLog with learningDone := false, learningHours := 0, workout := false }

/-- A slot with a running streak of 3 and one with no streak at all. -/
def exSlot3 : StreakSlot :=
  { streak := 3, best := 0, recoveryDays := 0, lastBroken := none, lastUpdated := none }

/-- A zeroed streak slot. -/
def exSlot0 : StreakSlot :=
  { streak := 0, best := 0, recoveryDays := 0, lastBroken := none, lastUpdated := none }

/-- C4 counterexample: in script.js `applyMissedDayPenalty` under
`strict` sensitivity a prior streak of 3 receives a flat 5-day recovery,
not `min(ceil(3/3), 5) = 1`, and even a habit with current count 0 has a
break applied (its recovery period becomes 5 rather than staying 0). -/
theorem applyMissedPenalty_strict_flat_recovery :
    (applyMissedPenaltyForHabit "learning" exMissLog "2026-01-02" exStrictS exSlot3).recoveryDays = 5 ∧
    min (Nat.ceil ((exSlot3.streak : ℚ) / 3)) 5 = 1 ∧
    (applyMissedPenaltyForHabit "learning" exMissLog "2026-01-02" exStrictS exSlot0).recoveryDays = 5 := by
  refine ⟨by decide, ?_, by decide⟩
  have h3 : (exSlot3.streak : ℚ) / 3 = 1 := by norm_num [exSlot3]
  rw [h3]
  simp

/-- C5 (amended): the habitSystem predicate satisfies the claim — the
learning habit is complete iff the learning-done flag is set and the
hours meet the configured `minHoursDaily` (default 0); but the script.js
predicate instead requires hours strictly positive and ignores the
configured minimum. -/
theorem learning_predicate_characterization (l : DayLog) (s : Settings) (hs : HSettings) :
    (DSM_isHabitComplete "learning" (some l) hs = true ↔
      l.learningDone = true ∧
        l.learningHours ≥ jsOrQ ((hs.nonNegotiables "learning").bind (fun x => x.minHoursDaily)) 0) ∧
    (isHabitValidated "learning" (some l) s = true ↔
      l.learningDone = true ∧ 0 < l.learningHours) := by
  constructor
  · simp only [DSM_isHabitComplete, if_pos rfl]
    cases hld : l.learningDone <;> simp [hld]
  · simp only [isHabitValidated, if_pos rfl]
    cases hld : l.learningDone <;> simp [hld]

/-- Script-path settings with the default configured learning minimum of
2 hours (which `isHabitValidated` never reads). -/
def exMinS : Settings :=
  { learningEnabled := none, gymEnabled := none, sleepEnabled := none
    screenTimeEnabled := none, wakeupTarget := 345, screenTimeGoal := none
    sensitivity := none, learningMinHours := 2 }

/-- A record with the learning toggle on but only 1 hour logged. -/
def exPartialLog : DayLog := { exGoodLog with learningHours := 1 }

/-- C5 counterexample: with the configured minimum at 2 hours, a record
with `learningDone = true` and only 1 hour is below the configured
minimum yet script.js `isHabitValidated` reports the learning habit
satisfied. -/
theorem isHabitValidated_ignores_configured_minimum :
    isHabitValidated "learning" (some exPartialLog) exMinS = true ∧
    exPartialLog.learningHours < exMinS.learningMinHours := by
  decide

/-- C6 (amended): for a habit id outside the four known habits the
script.js predicate returns `true` (fail-open) but the habitSystem
predicate returns `false` (fail-closed). -/
theorem unknown_habit_predicates (habitId : String) (l : DayLog) (s : Settings) (hs : HSettings)
    (h : habitId ≠ "learning" ∧ habitId ≠ "gym" ∧ habitId ≠ "sleep" ∧ habitId ≠ "screenTime") :
    isHabitValidated habitId (some l) s = true ∧
    DSM_isHabitComplete habitId (some l) hs = false := by
  obtain ⟨h1, h2, h3, h4⟩ := h
  constructor
  · unfold isHabitValidated
    simp [h1, h2, h3, h4]
  · unfold DSM_isHabitComplete
    simp [h1, h2, h3, h4]

/-- Witness for C6's amended theorem at the unknown id `meditation`. -/
theorem unknown_habit_predicates_witness :
    ("meditation" ≠ "learning" ∧ "meditation" ≠ "gym" ∧
      "meditation" ≠ "sleep" ∧ "meditation" ≠ "screenTime") ∧
    (isHabitValidated "meditation" (some exGoodLog) exMinS = true ∧
      DSM_isHabitComplete "meditation" (some exGoodLog) exHSettings = false) :=
  ⟨by decide, unknown_habit_predicates "meditation" exGoodLog exMinS exHSettings (by decide)⟩

/-- C6 counterexample: `DayStateMachine.isHabitComplete` on the unknown
habit id `meditation` returns `false`, not the fail-open `true` the
claim states. -/
theorem DSM_isHabitComplete_unknown_fail_closed :
    DSM_isHabitComplete "meditation" (some exGoodLog) exHSettings = false := by
  decide

/-- C8 (amended): when the backend persistence step fails, `saveNow`
leaves the `finalized` flag exactly as it was before the call (the
`catch` block reverts it), while the streak state ends up the same as on
a successful save — the streak mutations are not rolled back. -/
theorem saveNow_persist_failure_reverts_flag_only (st : AppState) (s : Settings)
    (today now : String) :
    (saveNow st s today now true false).todayLog.finalized = st.todayLog.finalized ∧
    (saveNow st s today now true false).streaks = (saveNow st s today now true true).streaks := by
  unfold saveNow
  cases h : st.todayLog.finalized <;> simp [h]

/-- All streak slots zeroed. -/
def exStreaks0 : Streaks3 := { learning := exSlot0, gym := exSlot0, sleep := exSlot0 }

/-- App state before finalize: today's record satisfies every habit but
is not yet finalized; streaks are all zero. -/
def exApp0 : AppState :=
  { todayLog := { exGoodLog with finalized := false, finalizedAt := none }
    streaks := exStreaks0
    lastActiveDate := none
    storage := none }

/-- C8 counterexample: a finalize whose persistence step fails leaves
`finalized = false` but the streak counters have already been mutated
(the learning streak went from 0 to 1), so the mutable state does differ
from its value before the call. -/
theorem saveNow_failure_mutates_streaks :
    (saveNow exApp0 exMinS "2026-01-01" "2026-01-01T20:00:00" true false).todayLog.finalized = false ∧
    (saveNow exApp0 exMinS "2026-01-01" "2026-01-01T20:00:00" true false).streaks ≠ exApp0.streaks := by
  decide

/-- habitSystem settings in which the learning habit is disabled. -/
def exDisabledHS : HSettings :=
  { nonNegotiables := fun _ => some { enabled := some false } }

/-- Script-path settings in which every habit is disabled. -/
def exDisabledS : Settings :=
  { learningEnabled := some false, gymEnabled := some false, sleepEnabled := some false
    screenTimeEnabled := some false, wakeupTarget := 345, screenTimeGoal := none
    sensitivity := none, learningMinHours := 2 }

/-- C9: a habit whose `enabled` flag is `false` in the configuration is
frozen — `updateHabitStreak` returns the streak state unchanged, and the
script.js per-habit streak update leaves the slot unchanged, regardless
of the day record. -/
theorem updateHabitStreak_disabled_noop (habitId : String) (log : DayLog) (sd : StreakData)
    (hs : HSettings) (now : String) (slot : StreakSlot) (today : String) (s : Settings)
    (h1 : (hs.nonNegotiables habitId).bind (fun x => x.enabled) = some false)
    (h2 : streakEnabledKey s habitId = some false) :
    updateHabitStreak habitId log sd hs now = sd ∧
    validateStreakForHabit habitId log today s slot = slot := by
  constructor
  · unfold updateHabitStreak
    cases hgh : getHabit habitId with
    | none => rfl
    | some habit =>
      cases hse : habit.streakEnabled <;> simp [hse, h1]
  · unfold validateStreakForHabit
    simp [h2]

/-- Witness for C9 at the disabled learning habit. -/
theorem updateHabitStreak_disabled_noop_witness :
    ((exDisabledHS.nonNegotiables "learning").bind (fun x => x.enabled) = some false) ∧
    (streakEnabledKey exDisabledS "learning" = some false) ∧
    (updateHabitStreak "learning" exGoodLog exStreak0 exDisabledHS "2026-01-01" = exStreak0 ∧
      validateStreakForHabit "learning" exGoodLog "2026-01-01" exDisabledS exSlot0 = exSlot0) :=
  ⟨rfl, rfl,
    updateHabitStreak_disabled_noop "learning" exGoodLog exStreak0 exDisabledHS "2026-01-01"
      exSlot0 "2026-01-01" exDisabledS rfl rfl⟩
